import Mathlib

/-!
Verification of the Sparkify data-lake ETL job (etl.py).

The script reads a song catalog and a stream of listening-log events,
builds four dimension tables (songs, artists, users, time) and one fact
table (songplays), and writes all five as parquet datasets.

Shallow embedding conventions:
  * A dataframe is a Lean list of rows (structures mirroring the columns).
  * dropDuplicates keeps the first occurrence of each row.
  * monotonically_increasing_id is modelled as the row index produced by
    List.enum: a valid instance of its contract (pairwise-distinct,
    increasing values; the concrete mapping is not depended on).
  * Epoch-millisecond timestamps are Nat; double-typed duration and
    length fields are Rat (the join compares them for exact equality, so
    only decidable equality of the carrier matters).
  * datetime.fromtimestamp is modelled in a fixed (UTC) timezone; the
    calendar arithmetic uses the standard civil-from-days algorithm.
  * Python-level failures (NameError from an unbound bare name,
    ValueError from strptime, AnalysisException from selecting a missing
    column) are modelled with Except String.
-/

namespace Etl

/-- A raw song-catalog record, per SONG_SCHEMA in etl.py. -/
structure SongRecord where
  artist_id : String
  title : String
  year : Int
  duration : Rat
  num_songs : Int
  artist_name : String
  artist_location : String
  artist_latitude : Rat
  artist_longitude : Rat
deriving DecidableEq, Repr

/-- A raw listening-log event, with the fields etl.py touches. -/
structure LogEvent where
  artist : String
  firstName : String
  gender : String
  lastName : String
  length : Rat
  level : String
  location : String
  page : String
  sessionId : Int
  song : String
  ts : Nat
  userId : String
  userAgent : String
deriving DecidableEq, Repr

/-- Helper for dropDuplicates: keep each element not seen before,
threading the list of already-kept elements. -/
def dropDuplicatesAux {α : Type} [DecidableEq α] (seen : List α) :
    List α → List α
  | [] => []
  | x :: xs =>
      if x ∈ seen then dropDuplicatesAux seen xs
      else x :: dropDuplicatesAux (x :: seen) xs

/-- Spark DataFrame.dropDuplicates on whole rows: keep the first
occurrence of each distinct row. -/
def dropDuplicates {α : Type} [DecidableEq α] (l : List α) : List α :=
  dropDuplicatesAux [] l

theorem mem_of_mem_dropDuplicatesAux {α : Type} [DecidableEq α] :
    ∀ {l seen : List α} {a : α}, a ∈ dropDuplicatesAux seen l → a ∈ l := by
  intro l
  induction l with
  | nil => intro seen a h; simp [dropDuplicatesAux] at h
  | cons x xs ih =>
      intro seen a h
      rw [dropDuplicatesAux] at h
      by_cases hx : x ∈ seen
      · rw [if_pos hx] at h
        exact List.mem_cons_of_mem _ (ih h)
      · rw [if_neg hx] at h
        rcases List.mem_cons.mp h with rfl | h2
        · exact List.mem_cons_self _ _
        · exact List.mem_cons_of_mem _ (ih h2)

theorem mem_of_mem_dropDuplicates {α : Type} [DecidableEq α]
    {l : List α} {a : α} (h : a ∈ dropDuplicates l) : a ∈ l :=
  mem_of_mem_dropDuplicatesAux h

theorem dropDuplicatesAux_spec {α : Type} [DecidableEq α] :
    ∀ (l seen : List α),
      (∀ a ∈ dropDuplicatesAux seen l, a ∉ seen) ∧
        (dropDuplicatesAux seen l).Nodup := by
  intro l
  induction l with
  | nil => intro seen; simp [dropDuplicatesAux]
  | cons x xs ih =>
      intro seen
      rw [dropDuplicatesAux]
      by_cases hx : x ∈ seen
      · rw [if_pos hx]
        exact ih seen
      · rw [if_neg hx]
        obtain ⟨hnotin, hnd⟩ := ih (x :: seen)
        constructor
        · intro a ha
          rcases List.mem_cons.mp ha with rfl | ha2
          · exact hx
          · intro hs
            exact hnotin a ha2 (List.mem_cons_of_mem _ hs)
        · refine List.nodup_cons.mpr ⟨fun hmem => ?_, hnd⟩
          exact hnotin x hmem (List.mem_cons_self _ _)

theorem nodup_dropDuplicates {α : Type} [DecidableEq α] (l : List α) :
    (dropDuplicates l).Nodup :=
  (dropDuplicatesAux_spec l []).2

theorem dropDuplicatesAux_of_nodup {α : Type} [DecidableEq α] :
    ∀ {l seen : List α}, l.Nodup → (∀ a ∈ l, a ∉ seen) →
      dropDuplicatesAux seen l = l := by
  intro l
  induction l with
  | nil => intro seen _ _; rfl
  | cons x xs ih =>
      intro seen hnd hdisj
      rcases List.nodup_cons.mp hnd with ⟨hx, hxs⟩
      rw [dropDuplicatesAux, if_neg (hdisj x (List.mem_cons_self _ _))]
      congr 1
      apply ih hxs
      intro a ha
      intro hseen
      rcases List.mem_cons.mp hseen with rfl | h2
      · exact hx ha
      · exact hdisj a (List.mem_cons_of_mem _ ha) h2

theorem dropDuplicates_of_nodup {α : Type} [DecidableEq α]
    {l : List α} (h : l.Nodup) : dropDuplicates l = l :=
  dropDuplicatesAux_of_nodup h (by simp)

theorem dropDuplicates_idem {α : Type} [DecidableEq α] (l : List α) :
    dropDuplicates (dropDuplicates l) = dropDuplicates l :=
  dropDuplicates_of_nodup (nodup_dropDuplicates l)

theorem length_dropDuplicatesAux_le {α : Type} [DecidableEq α] :
    ∀ (l seen : List α), (dropDuplicatesAux seen l).length ≤ l.length := by
  intro l
  induction l with
  | nil => intro seen; simp [dropDuplicatesAux]
  | cons x xs ih =>
      intro seen
      rw [dropDuplicatesAux]
      by_cases hx : x ∈ seen
      · rw [if_pos hx]
        exact le_trans (ih seen) (Nat.le_succ _)
      · rw [if_neg hx]
        simpa using Nat.succ_le_succ (ih (x :: seen))

theorem length_dropDuplicates_le {α : Type} [DecidableEq α] (l : List α) :
    (dropDuplicates l).length ≤ l.length :=
  length_dropDuplicatesAux_le l []

/-! ### Timestamp model

get_timestamp in etl.py is
  datetime.fromtimestamp(dt / 1000.0).isoformat()
We model the resulting datetime value by its epoch seconds and
microseconds (timezone fixed to UTC).  isoformat emits a fractional
seconds part exactly when microseconds is nonzero, and
datetime.strptime with format %Y-%m-%dT%H:%M:%S.%f requires that
fractional part, raising ValueError when it is absent. -/

/-- The value of the datetime produced by get_timestamp, standing for
its ISO-8601 string: epoch seconds plus microseconds.  The rendered
string carries a fractional part iff microseconds is nonzero. -/
structure IsoTimestamp where
  epochSeconds : Nat
  microseconds : Nat
deriving DecidableEq, Repr

/-- Embedding of the get_timestamp UDF (etl.py lines 18-20): epoch
milliseconds to the datetime whose isoformat string is produced. -/
def get_timestamp (dt : Nat) : IsoTimestamp :=
  { epochSeconds := dt / 1000, microseconds := dt % 1000 * 1000 }

/-- The ValueError datetime.strptime raises when the input string has no
fractional-seconds part. -/
def strptimeFormatError : String :=
  "ValueError: time data does not match format %Y-%m-%dT%H:%M:%S.%f"

/-- Embedding of the get_weekday UDF (etl.py lines 23-25):
strptime(s, %Y-%m-%dT%H:%M:%S.%f).strftime(%w).  The parse succeeds only
when the string has a fractional part; %w yields 0..6 with 0 = Sunday
(epoch day 1970-01-01 was a Thursday, %w value 4). -/
def get_weekday (t : IsoTimestamp) : Except String Nat :=
  if t.microseconds = 0 then Except.error strptimeFormatError
  else Except.ok ((t.epochSeconds / 86400 + 4) % 7)

/-- Days since the Unix epoch of the datetime. -/
def epochDayOf (t : IsoTimestamp) : Nat := t.epochSeconds / 86400

/-- Embedding of F.hour applied to start_time. -/
def hourOf (t : IsoTimestamp) : Nat := t.epochSeconds % 86400 / 3600

/-- Civil (year, month, day) from days since the epoch; the standard
era-based algorithm, used to embed F.year, F.month, F.dayofmonth. -/
def civilFromDays (z0 : Int) : Int × Int × Int :=
  let z := z0 + 719468
  let era : Int := (if 0 ≤ z then z else z - 146096) / 146097
  let doe : Int := z - era * 146097
  let yoe : Int := (doe - doe / 1460 + doe / 36524 - doe / 146096) / 365
  let y : Int := yoe + era * 400
  let doy : Int := doe - (365 * yoe + yoe / 4 - yoe / 100)
  let mp : Int := (5 * doy + 2) / 153
  let d : Int := doy - (153 * mp + 2) / 5 + 1
  let m : Int := if mp < 10 then mp + 3 else mp - 9
  (if m ≤ 2 then y + 1 else y, m, d)

/-- Days since the Unix epoch of a civil (year, month, day); inverse of
civilFromDays. -/
def daysFromCivil (y m d : Int) : Int :=
  let y2 := if m ≤ 2 then y - 1 else y
  let era : Int := (if 0 ≤ y2 then y2 else y2 - 399) / 400
  let yoe : Int := y2 - era * 400
  let doy : Int := (153 * (if 2 < m then m - 3 else m + 9) + 2) / 5 + d - 1
  let doe : Int := yoe * 365 + yoe / 4 - yoe / 100 + doy
  era * 146097 + doe - 719468

def isLeapYear (y : Int) : Bool :=
  y % 4 = 0 && (y % 100 ≠ 0 || y % 400 = 0)

/-- ISO weekday (Monday = 1 .. Sunday = 7) of a day-since-epoch count. -/
def isoWeekdayOf (epochDay : Int) : Int := (epochDay + 3).emod 7 + 1

/-- Number of ISO weeks in a year. -/
def weeksInYear (y : Int) : Int :=
  if isoWeekdayOf (daysFromCivil y 1 1) = 4 ∨
      (isLeapYear y ∧ isoWeekdayOf (daysFromCivil y 1 1) = 3) then 53 else 52

/-- Embedding of F.weekofyear: ISO-8601 week number of the date. -/
def weekofyear (epochDay : Int) : Int :=
  let y := (civilFromDays epochDay).1
  let wd := isoWeekdayOf epochDay
  let doy := epochDay - daysFromCivil y 1 1 + 1
  let w := (doy - wd + 10) / 7
  if w < 1 then weeksInYear (y - 1)
  else if weeksInYear y < w then 1
  else w

def yearOf (t : IsoTimestamp) : Int := (civilFromDays (epochDayOf t)).1
def monthOf (t : IsoTimestamp) : Int := (civilFromDays (epochDayOf t)).2.1
def dayOf (t : IsoTimestamp) : Int := (civilFromDays (epochDayOf t)).2.2

/-! ### Dimension tables -/

/-- Spark filter(col(page) == NextSong), etl.py line 134; every
downstream table of process_log_data is built from this filtered df. -/
def filterNextSong (s : List LogEvent) : List LogEvent :=
  s.filter (fun e => e.page == "NextSong")

/-- A row of the users table (etl.py lines 138-142). -/
structure UserRow where
  userId : String
  firstName : String
  lastName : String
  gender : String
  level : String
deriving DecidableEq, Repr

/-- users_df: select the five user columns from the filtered events and
drop duplicate rows. -/
def users_table (s : List LogEvent) : List UserRow :=
  dropDuplicates ((filterNextSong s).map fun e =>
    { userId := e.userId, firstName := e.firstName, lastName := e.lastName
      gender := e.gender, level := e.level })

/-- A row of the time table (etl.py lines 152-169): the kept ts column,
start_time, and the six derived fields. -/
structure TimeRow where
  ts : Nat
  start_time : IsoTimestamp
  hour : Nat
  day : Int
  week : Int
  month : Int
  year : Int
  weekday : Nat
deriving DecidableEq, Repr

/-- One time-table row from one filtered event; fails (ValueError from
get_weekday) when the start_time string has no fractional part. -/
def timeRow (e : LogEvent) : Except String TimeRow :=
  let st := get_timestamp e.ts
  match get_weekday st with
  | Except.error msg => Except.error msg
  | Except.ok w =>
      Except.ok
        { ts := e.ts, start_time := st, hour := hourOf st, day := dayOf st
          week := weekofyear (epochDayOf st), month := monthOf st
          year := yearOf st, weekday := w }

/-- Row-wise evaluation where any row failure fails the whole job, as a
Spark action over a dataframe with a raising UDF does. -/
def mapE {α β : Type} (f : α → Except String β) : List α → Except String (List β)
  | [] => Except.ok []
  | x :: xs =>
      match f x with
      | Except.error msg => Except.error msg
      | Except.ok y =>
          match mapE f xs with
          | Except.error msg => Except.error msg
          | Except.ok ys => Except.ok (y :: ys)

/-- time_df: one row per filtered event (etl.py applies no
dropDuplicates on the time table). -/
def time_table (s : List LogEvent) : Except String (List TimeRow) :=
  mapE timeRow (filterNextSong s)

/-! ### Catalog tables -/

/-- The four selected song columns before the surrogate key is added
(etl.py line 91). -/
structure SongsCore where
  artist_id : String
  title : String
  year : Int
  duration : Rat
deriving DecidableEq, Repr

/-- A row of the songs table: the deduplicated projection plus the
generated song_id. -/
structure SongsRow where
  song_id : Nat
  artist_id : String
  title : String
  year : Int
  duration : Rat
deriving DecidableEq, Repr

/-- The select-then-dropDuplicates stage of the songs table
(etl.py lines 89-92). -/
def songs_select (df : List SongRecord) : List SongsCore :=
  dropDuplicates (df.map fun r =>
    { artist_id := r.artist_id, title := r.title
      year := r.year, duration := r.duration })

/-- songs_df (etl.py lines 89-94): dedup first, then withColumn song_id
via monotonically_increasing_id, modelled as the row index. -/
def songs_table (df : List SongRecord) : List SongsRow :=
  (songs_select df).enum.map fun p =>
    { song_id := p.1, artist_id := p.2.artist_id, title := p.2.title
      year := p.2.year, duration := p.2.duration }

/-- A row of the artists table (etl.py lines 106-110). -/
structure ArtistRow where
  artist_id : String
  artist_name : String
  artist_location : String
  artist_latitude : Rat
  artist_longitude : Rat
deriving DecidableEq, Repr

/-- artists_df: select the five artist columns and drop duplicates. -/
def artists_table (df : List SongRecord) : List ArtistRow :=
  dropDuplicates (df.map fun r =>
    { artist_id := r.artist_id, artist_name := r.artist_name
      artist_location := r.artist_location
      artist_latitude := r.artist_latitude
      artist_longitude := r.artist_longitude })

/-! ### Fact join -/

/-- The log-side dataframe of the fact join (etl.py lines 189-198),
with its eleven selected columns; songplay_id is the generated id. -/
structure LogRow where
  userId : String
  sessionId : Int
  userAgent : String
  length : Rat
  artist : String
  location : String
  song : String
  level : String
  songplay_id : Nat
  start_time : IsoTimestamp
  month : Int
deriving DecidableEq, Repr

/-- log_df: the filtered events with songplay_id, start_time and month
added (the dataflow of etl.py lines 189-198, taking
monotonically_increasing_id and month to denote the pyspark functions;
the unbound bare names themselves are treated separately). -/
def log_df (s : List LogEvent) : List LogRow :=
  (filterNextSong s).enum.map fun p =>
    let st := get_timestamp p.2.ts
    { userId := p.2.userId, sessionId := p.2.sessionId
      userAgent := p.2.userAgent, length := p.2.length
      artist := p.2.artist, location := p.2.location
      song := p.2.song, level := p.2.level
      songplay_id := p.1, start_time := st, month := monthOf st }

/-- The inner equality join of etl.py lines 203-208:
log_df.join(songs_df, song == title AND length == duration).  Each
output row pairs a log row with a matching songs row. -/
def songplays_join (s : List LogEvent) (songs : List SongsRow) :
    List (LogRow × SongsRow) :=
  (log_df s).flatMap fun l =>
    (songs.filter fun r => decide (l.song = r.title ∧ l.length = r.duration)).map
      fun r => (l, r)

/-! ### Column resolution of the songplays select

Spark resolves every name in a select against the columns of the input
frame during analysis and raises an AnalysisException when one is
missing.  We record the column names of the frames of etl.py as string
lists and model the resolution step. -/

/-- The columns of log_df, in the order of the select at etl.py
lines 194-197. -/
def log_df_columns : List String :=
  ["userId", "sessionId", "userAgent", "length", "artist", "location",
   "song", "level", "songplay_id", "start_time", "month"]

/-- The columns of the songs table as read back from parquet
(etl.py line 184): the four selected song columns plus song_id. -/
def songs_table_columns : List String :=
  ["artist_id", "title", "year", "duration", "song_id"]

/-- The column list of the songplays select, etl.py lines 209-213. -/
def songplays_select_columns : List String :=
  ["songplay_id", "start_time", "user_id", "level", "song_id",
   "artist_id", "session_id", "location", "user_agent", "year", "month"]

/-- Spark analysis of a select: succeeds with the projected columns when
every requested name is a column of the input frame, fails otherwise. -/
def selectColumns (cols avail : List String) : Option (List String) :=
  if cols.all avail.contains then some cols else none

/-! ### Python name resolution at the fact-join step

Lines 191 and 193 of etl.py call the bare names
monotonically_increasing_id and month (not F.monotonically_increasing_id
and F.month).  Python resolves a bare name against the function locals,
the module globals, and the builtins, and raises NameError when none
binds it.  The module scope of etl.py binds exactly the imported names
and the module-level definitions listed below. -/

/-- Names bound at module scope in etl.py: the import statements
(lines 1-15) and the module-level defs and assignments. -/
def moduleScopeNames : List String :=
  ["configparser", "datetime", "os", "SparkSession", "F",
   "StructType", "StructField", "StringType", "DoubleType",
   "IntegerType", "DateType", "TimestampType",
   "get_timestamp", "get_weekday", "get_songs_table_path",
   "get_artists_table_path", "config", "SONG_SCHEMA",
   "create_spark_session", "process_song_data", "process_log_data",
   "main"]

/-- The local names of the process_log_data function body (its
parameters and assigned variables). -/
def processLogDataLocalNames : List String :=
  ["spark", "input_data", "output_data", "log_data", "df", "users_df",
   "users_table_path", "time_df", "time_table_path", "songs_table_path",
   "songs_df", "log_df", "songplays_df", "songplays_table_path"]

/-- A representative list of Python builtin names (none of the pyspark
function names is a builtin). -/
def pythonBuiltinNames : List String :=
  ["print", "len", "range", "str", "int", "float", "bool", "bytes",
   "open", "dict", "list", "set", "tuple", "isinstance", "getattr",
   "setattr", "abs", "sum", "sorted", "map", "zip", "enumerate",
   "type", "repr", "format", "id", "hash", "iter", "next", "vars",
   "dir", "callable", "super", "object", "Exception", "ValueError",
   "TypeError", "NameError", "KeyError"]

/-- Whether a bare name resolves inside process_log_data. -/
def resolvesInProcessLogData (n : String) : Bool :=
  processLogDataLocalNames.contains n || moduleScopeNames.contains n ||
    pythonBuiltinNames.contains n

def nameErrorMsg (n : String) : String :=
  "NameError: name " ++ n ++ " is not defined"

/-- The fact-join step of process_log_data (etl.py lines 189-214) with
its failure modes: first the bare names of lines 191 and 193 must
resolve, then the songplays select must resolve against the joined
columns, and only then is the joined data produced. -/
def fact_join_step (s : List LogEvent) (songs : List SongsRow) :
    Except String (List (LogRow × SongsRow)) :=
  if resolvesInProcessLogData "monotonically_increasing_id" = false then
    Except.error (nameErrorMsg "monotonically_increasing_id")
  else if resolvesInProcessLogData "month" = false then
    Except.error (nameErrorMsg "month")
  else
    match selectColumns songplays_select_columns
        (log_df_columns ++ songs_table_columns) with
    | none => Except.error "AnalysisException: unresolved column in the songplays select"
    | some _ => Except.ok (songplays_join s songs)

/-! ### Storage trace of a run

The reads and writes of object storage, in program order.  main runs
process_song_data to completion and then process_log_data (etl.py
lines 229-238); the paths are built by the helpers of lines 28-33. -/

inductive StorageEvent where
  | readSongData
  | writeSongs (path : String)
  | writeArtists (path : String)
  | readLogData
  | writeUsers (path : String)
  | writeTime (path : String)
  | readSongs (path : String)
  | writeSongplays (path : String)
deriving DecidableEq, Repr

/-- os.path.join(output_data, songs.parquet), etl.py lines 28-29. -/
def get_songs_table_path (output_data : String) : String :=
  output_data ++ "/songs.parquet"

/-- os.path.join(output_data, artists.parquet), etl.py lines 32-33. -/
def get_artists_table_path (output_data : String) : String :=
  output_data ++ "/artists.parquet"

/-- Storage events of process_song_data, in program order. -/
def process_song_data_trace (output_data : String) : List StorageEvent :=
  [StorageEvent.readSongData,
   StorageEvent.writeSongs (get_songs_table_path output_data),
   StorageEvent.writeArtists (get_artists_table_path output_data)]

/-- Storage events of process_log_data, in program order. -/
def process_log_data_trace (output_data : String) : List StorageEvent :=
  [StorageEvent.readLogData,
   StorageEvent.writeUsers (output_data ++ "/users.parquet"),
   StorageEvent.writeTime (output_data ++ "/time.parquet"),
   StorageEvent.readSongs (get_songs_table_path output_data),
   StorageEvent.writeSongplays (output_data ++ "/songplays.parquet")]

/-- The output root hard-coded in main, etl.py line 232. -/
def output_data_path : String :=
  "s3a://for-data-engineering-nanodegree/dend_project_4"

/-- The storage trace of main: the catalog phase runs to completion
before the event phase starts. -/
def main_trace : List StorageEvent :=
  process_song_data_trace output_data_path ++
    process_log_data_trace output_data_path

/-! ### Concrete sample data for witnesses and counterexamples -/

/-- The join key the songplays join compares on the songs side. -/
def songKey (r : SongsRow) : String × Rat := (r.title, r.duration)

/-- A well-formed NextSong event with a fractional-second timestamp. -/
def e0 : LogEvent :=
  { artist := "A", firstName := "F", gender := "M", lastName := "L",
    length := 180, level := "free", location := "X", page := "NextSong",
    sessionId := 1, song := "Title", ts := 1001, userId := "U",
    userAgent := "ua" }

/-- The time-table row of e0. -/
def r0 : TimeRow :=
  { ts := 1001, start_time := { epochSeconds := 1, microseconds := 1000 },
    hour := 0, day := 1, week := 1, month := 1, year := 1970, weekday := 4 }

/-- A songs-table row matching e0 on (title, duration). -/
def sampleSong : SongsRow :=
  { song_id := 0, artist_id := "AR1", title := "Title", year := 2000,
    duration := 180 }

/-- The log_df row of e0. -/
def l0 : LogRow :=
  { userId := "U", sessionId := 1, userAgent := "ua", length := 180,
    artist := "A", location := "X", song := "Title", level := "free",
    songplay_id := 0, start_time := { epochSeconds := 1, microseconds := 1000 },
    month := 1 }

/-- An event on a page other than NextSong. -/
def eHome : LogEvent :=
  { artist := "A", firstName := "F", gender := "M", lastName := "L",
    length := 180, level := "free", location := "X", page := "Home",
    sessionId := 1, song := "Title", ts := 1001, userId := "U",
    userAgent := "ua" }

/-- A NextSong event whose timestamp is a whole number of seconds. -/
def eWhole : LogEvent :=
  { artist := "A", firstName := "F", gender := "M", lastName := "L",
    length := 180, level := "free", location := "X", page := "NextSong",
    sessionId := 1, song := "Title", ts := 3000, userId := "U",
    userAgent := "ua" }

/-- Two catalog records sharing (title, duration) under different
artists; both survive the full-tuple dedup. -/
def fanoutRecA : SongRecord :=
  { artist_id := "AR1", title := "Y", year := 2000, duration := 200,
    num_songs := 1, artist_name := "N1", artist_location := "L1",
    artist_latitude := 0, artist_longitude := 0 }

def fanoutRecB : SongRecord :=
  { artist_id := "AR2", title := "Y", year := 2000, duration := 200,
    num_songs := 1, artist_name := "N2", artist_location := "L2",
    artist_latitude := 0, artist_longitude := 0 }

/-- A NextSong event matching both fan-out songs rows. -/
def fanoutEvent : LogEvent :=
  { artist := "A", firstName := "F", gender := "M", lastName := "L",
    length := 200, level := "free", location := "X", page := "NextSong",
    sessionId := 1, song := "Y", ts := 1001, userId := "U",
    userAgent := "ua" }

/-- A stream with two filtered events carrying the same ts value. -/
def dupTsStream : List LogEvent := [e0, e0]

/-! ### Theorems -/

/-- Claim C3: every songplays row pairs the originating log row with a
songs row whose title equals the log song field and whose duration is
exactly (no tolerance) the log length field; a log event with no
exactly-matching songs row contributes zero songplays rows. -/
theorem C3_join_soundness (s : List LogEvent) (songs : List SongsRow) :
    (∀ p ∈ songplays_join s songs,
        p.2 ∈ songs ∧ p.2.title = p.1.song ∧ p.2.duration = p.1.length) ∧
    (∀ l : LogRow,
        (∀ r ∈ songs, ¬(r.title = l.song ∧ r.duration = l.length)) →
        ∀ p ∈ songplays_join s songs, p.1 ≠ l) := by
  constructor
  · intro p hp
    simp only [songplays_join, List.mem_flatMap, List.mem_map] at hp
    obtain ⟨l, _, r, hr, rfl⟩ := hp
    rcases List.mem_filter.mp hr with ⟨hrs, hcond⟩
    rcases of_decide_eq_true hcond with ⟨h1, h2⟩
    exact ⟨hrs, h1.symm, h2.symm⟩
  · intro l hnone p hp rfl_eq
    simp only [songplays_join, List.mem_flatMap, List.mem_map] at hp
    obtain ⟨l2, _, r, hr, hpair⟩ := hp
    rcases List.mem_filter.mp hr with ⟨hrs, hcond⟩
    rcases of_decide_eq_true hcond with ⟨h1, h2⟩
    have hl2 : l2 = l := by
      have := congrArg Prod.fst hpair
      simpa [rfl_eq] using this
    exact hnone r hrs ⟨by rw [← h1, hl2], by rw [← h2, hl2]⟩

/-- Witness for C3 at a one-event, one-song input. -/
theorem C3_join_soundness_witness :
    sampleSong ∈ [sampleSong] ∧ sampleSong.title = l0.song ∧
      sampleSong.duration = l0.length :=
  (C3_join_soundness [e0] [sampleSong]).1 (l0, sampleSong) (by decide)

/-- Claim C8: the Songs, Artists and Users extractions deduplicate on
the full projected tuple; re-deduplicating their output changes nothing,
and the extraction never grows the row set. -/
theorem C8_dedup_idempotent (df : List SongRecord) (s : List LogEvent) :
    dropDuplicates (songs_select df) = songs_select df ∧
    (songs_select df).length ≤ df.length ∧
    dropDuplicates (artists_table df) = artists_table df ∧
    (artists_table df).length ≤ df.length ∧
    dropDuplicates (users_table s) = users_table s ∧
    (users_table s).length ≤ (filterNextSong s).length := by
  refine ⟨dropDuplicates_of_nodup (nodup_dropDuplicates _), ?_,
    dropDuplicates_of_nodup (nodup_dropDuplicates _), ?_,
    dropDuplicates_of_nodup (nodup_dropDuplicates _), ?_⟩
  · exact le_trans (length_dropDuplicates_le _) (by simp)
  · exact le_trans (length_dropDuplicates_le _) (by simp)
  · exact le_trans (length_dropDuplicates_le _) (by simp [users_table])

theorem filterNextSong_erase (e : LogEvent) (hpage : e.page ≠ "NextSong")
    (s1 s2 : List LogEvent) :
    filterNextSong (s1 ++ e :: s2) = filterNextSong (s1 ++ s2) := by
  have hb : (e.page == "NextSong") = false := beq_eq_false_iff_ne.mpr hpage
  simp [filterNextSong, List.filter_append, List.filter_cons, hb]

/-- Claim C5: an event whose page field is not NextSong contributes to
none of the downstream computations: deleting it from the stream leaves
the users table, the time table, the log side of the fact join and the
join output unchanged. -/
theorem C5_filter_nextsong (e : LogEvent) (hpage : e.page ≠ "NextSong")
    (s1 s2 : List LogEvent) (songs : List SongsRow) :
    users_table (s1 ++ e :: s2) = users_table (s1 ++ s2) ∧
    time_table (s1 ++ e :: s2) = time_table (s1 ++ s2) ∧
    log_df (s1 ++ e :: s2) = log_df (s1 ++ s2) ∧
    songplays_join (s1 ++ e :: s2) songs = songplays_join (s1 ++ s2) songs := by
  have hf := filterNextSong_erase e hpage s1 s2
  refine ⟨?_, ?_, ?_, ?_⟩
  · rw [users_table, users_table, hf]
  · rw [time_table, time_table, hf]
  · rw [log_df, log_df, hf]
  · rw [songplays_join, songplays_join, log_df, log_df, hf]

/-- Witness for C5: a Home-page event between two empty stream halves
contributes nothing. -/
theorem C5_filter_nextsong_witness :
    users_table ([] ++ eHome :: []) = users_table ([] ++ []) ∧
    time_table ([] ++ eHome :: []) = time_table ([] ++ []) ∧
    log_df ([] ++ eHome :: []) = log_df ([] ++ []) ∧
    songplays_join ([] ++ eHome :: []) [sampleSong] =
      songplays_join ([] ++ []) [sampleSong] :=
  C5_filter_nextsong eHome (by decide) [] [] [sampleSong]

/-- Claim C7: whenever a time-table row is produced for a filtered
event, its weekday field is a day-of-week value in the range 0..6
(anchor: 0 = Sunday, the strftime %w convention), computed from
start_time. -/
theorem C7_weekday_range (e : LogEvent) (r : TimeRow)
    (h : timeRow e = Except.ok r) : r.weekday ≤ 6 := by
  cases hw : get_weekday (get_timestamp e.ts) with
  | error m => simp [timeRow, hw] at h
  | ok w =>
      simp only [timeRow, hw, Except.ok.injEq] at h
      have hwk : r.weekday = w := by rw [← h]
      unfold get_weekday at hw
      by_cases hm : (get_timestamp e.ts).microseconds = 0
      · simp [hm] at hw
      · simp only [hm, if_neg, ite_false] at hw
        have := Except.ok.inj hw
        omega

/-- Witness for C7 at the event e0. -/
theorem C7_weekday_range_witness : r0.weekday ≤ 6 :=
  C7_weekday_range e0 r0 (by rfl)

theorem mapE_ne_ok_of_mem {α β : Type} (f : α → Except String β)
    (m : String) {x : α} :
    ∀ {l : List α}, x ∈ l → f x = Except.error m →
      ∀ rows, mapE f l ≠ Except.ok rows := by
  intro l
  induction l with
  | nil => intro h; cases h
  | cons y ys ih =>
      intro hmem hfx rows
      rcases List.mem_cons.mp hmem with rfl | hmem2
      · simp [mapE, hfx]
      · cases hfy : f y with
        | error m2 => simp [mapE, hfy]
        | ok b =>
            cases hys : mapE f ys with
            | error m2 => simp [mapE, hfy, hys]
            | ok rows2 => exact absurd hys (ih hmem2 hfx rows2)

theorem mapE_ok_length {α β : Type} (f : α → Except String β) :
    ∀ {l : List α} {ys : List β}, mapE f l = Except.ok ys →
      ys.length = l.length := by
  intro l
  induction l with
  | nil => intro ys h; cases h; rfl
  | cons x xs ih =>
      intro ys h
      unfold mapE at h
      cases hfx : f x with
      | error m => rw [hfx] at h; cases h
      | ok b =>
          rw [hfx] at h
          cases hxs : mapE f xs with
          | error m => rw [hxs] at h; cases h
          | ok ys2 =>
              rw [hxs] at h
              cases h
              simp [ih hxs]

theorem mapE_ok_mem {α β : Type} (f : α → Except String β) :
    ∀ {l : List α} {ys : List β}, mapE f l = Except.ok ys →
      ∀ y ∈ ys, ∃ x ∈ l, f x = Except.ok y := by
  intro l
  induction l with
  | nil => intro ys h; cases h; intro y hy; cases hy
  | cons x xs ih =>
      intro ys h y hy
      unfold mapE at h
      cases hfx : f x with
      | error m => rw [hfx] at h; cases h
      | ok b =>
          rw [hfx] at h
          cases hxs : mapE f xs with
          | error m => rw [hxs] at h; cases h
          | ok ys2 =>
              rw [hxs] at h
              cases h
              rcases List.mem_cons.mp hy with rfl | hy2
              · exact ⟨x, List.mem_cons_self _ _, hfx⟩
              · obtain ⟨x2, hx2, hfx2⟩ := ih hxs y hy2
                exact ⟨x2, List.mem_cons_of_mem _ hx2, hfx2⟩

/-- Claim C10: an otherwise-valid filtered event whose ts is a whole
number of seconds makes the time-table computation fail: get_timestamp
yields a datetime whose isoformat string has no fractional part, and
get_weekday raises because strptime format %Y-%m-%dT%H:%M:%S.%f
requires one. -/
theorem C10_whole_second_ts_fails (ts : Nat) (hts : ts % 1000 = 0) :
    (get_timestamp ts).microseconds = 0 ∧
    get_weekday (get_timestamp ts) = Except.error strptimeFormatError ∧
    ∀ (s : List LogEvent) (e : LogEvent), e ∈ filterNextSong s →
      e.ts = ts → ∀ rows, time_table s ≠ Except.ok rows := by
  have hmic : (get_timestamp ts).microseconds = 0 := by
    simp [get_timestamp, hts]
  refine ⟨hmic, ?_, ?_⟩
  · simp [get_weekday, hmic]
  · intro s e hmem hets rows
    have herr : timeRow e = Except.error strptimeFormatError := by
      unfold timeRow
      rw [hets]
      simp [get_weekday, hmic]
    exact mapE_ne_ok_of_mem timeRow strptimeFormatError hmem herr rows

/-- Witness for C10 at the whole-second event eWhole. -/
theorem C10_whole_second_ts_fails_witness :
    (get_timestamp 3000).microseconds = 0 ∧
    get_weekday (get_timestamp 3000) = Except.error strptimeFormatError ∧
    time_table [eWhole] ≠ Except.ok [] := by
  obtain ⟨h1, h2, h3⟩ := C10_whole_second_ts_fails 3000 (by decide)
  exact ⟨h1, h2, h3 [eWhole] eWhole (by decide) (by decide) []⟩

/-- Counterexample to C6 as stated: a stream whose two filtered events
carry the same ts yields a time table with two rows, not one row per
distinct ts (etl.py applies no dropDuplicates to time_df). -/
theorem C6_counterexample :
    (time_table dupTsStream).toOption.map List.length = some 2 ∧
    ((filterNextSong dupTsStream).map LogEvent.ts).dedup.length = 1 ∧
    (2 : Nat) ≠ 1 := by
  refine ⟨by rfl, by rfl, by decide⟩

/-- Claim C6 amended: the time table has exactly one row per filtered
event (not per distinct ts); each row is derived from some filtered
event, and duplicate ts values yield duplicate rows. -/
theorem C6_amended_one_row_per_event (s : List LogEvent)
    (rows : List TimeRow) (h : time_table s = Except.ok rows) :
    rows.length = (filterNextSong s).length ∧
    ∀ r ∈ rows, ∃ e ∈ filterNextSong s, timeRow e = Except.ok r :=
  ⟨mapE_ok_length timeRow h, mapE_ok_mem timeRow h⟩

/-- Witness for the amended C6 at a one-event stream. -/
theorem C6_amended_one_row_per_event_witness :
    ([r0] : List TimeRow).length = (filterNextSong [e0]).length ∧
    ∀ r ∈ ([r0] : List TimeRow), ∃ e ∈ filterNextSong [e0],
      timeRow e = Except.ok r :=
  C6_amended_one_row_per_event [e0] [r0] (by rfl)

theorem songs_table_ids (df : List SongRecord) :
    (songs_table df).map SongsRow.song_id =
      List.range (songs_select df).length := by
  rw [songs_table, List.map_map]
  exact List.enum_map_fst _

theorem log_df_ids (s : List LogEvent) :
    (log_df s).map LogRow.songplay_id =
      List.range (filterNextSong s).length := by
  rw [log_df, List.map_map]
  exact List.enum_map_fst _

theorem nodup_of_length_le_one {α : Type} {l : List α}
    (h : l.length ≤ 1) : l.Nodup := by
  cases l with
  | nil => simp
  | cons a t =>
      cases t with
      | nil => simp
      | cons b t2 => simp at h

theorem length_filter_le_one {α κ : Type} [DecidableEq κ] (key : α → κ)
    (p : α → Bool) (k : κ) (hp : ∀ x, p x = true → key x = k) :
    ∀ l : List α, (l.map key).Nodup → (l.filter p).length ≤ 1 := by
  intro l
  induction l with
  | nil => intro _; simp
  | cons x xs ih =>
      intro hnd
      rw [List.map_cons, List.nodup_cons] at hnd
      obtain ⟨hx, hxs⟩ := hnd
      rw [List.filter_cons]
      by_cases hpx : p x = true
      · have hempty : xs.filter p = [] := by
          rw [List.filter_eq_nil_iff]
          intro a ha hpa
          exact hx (((hp a hpa).trans (hp x hpx).symm) ▸
            List.mem_map_of_mem key ha)
        simp [hpx, hempty]
      · simp only [hpx, ite_false, Bool.false_eq_true, if_neg]
        exact ih hxs

theorem nodup_flatMap_const {α β γ : Type} (f : α → γ) (g : α → List β)
    (hlen : ∀ x, (g x).length ≤ 1) :
    ∀ l : List α, (l.map f).Nodup →
      (l.flatMap fun x => (g x).map fun _ => f x).Nodup := by
  intro l
  induction l with
  | nil => intro _; simp
  | cons x xs ih =>
      intro hnd
      rw [List.map_cons, List.nodup_cons] at hnd
      obtain ⟨hx, hxs⟩ := hnd
      rw [List.flatMap_cons, List.nodup_append]
      refine ⟨?_, ih hxs, ?_⟩
      · refine nodup_of_length_le_one ?_
        simpa using hlen x
      · intro y hy1 hy2
        rcases List.mem_map.mp hy1 with ⟨a, _, rfl⟩
        rcases List.mem_flatMap.mp hy2 with ⟨x2, hx2, hy3⟩
        rcases List.mem_map.mp hy3 with ⟨a2, _, heq⟩
        exact hx (heq ▸ List.mem_map_of_mem f hx2)

/-- Counterexample to C4 as stated: two songs rows sharing (title,
duration) both match one event, and the join fans the event out into
two songplays rows carrying the same songplay_id, so the songplay_id
values of the songplays table are not pairwise distinct. -/
theorem C4_counterexample :
    ((songplays_join [fanoutEvent] (songs_table [fanoutRecA, fanoutRecB])).map
        Prod.fst).map LogRow.songplay_id = [0, 0] ∧
    ¬ (((songplays_join [fanoutEvent]
          (songs_table [fanoutRecA, fanoutRecB])).map
        Prod.fst).map LogRow.songplay_id).Nodup := by
  have h : ((songplays_join [fanoutEvent]
      (songs_table [fanoutRecA, fanoutRecB])).map
        Prod.fst).map LogRow.songplay_id = [0, 0] := by rfl
  exact ⟨h, by rw [h]; decide⟩

/-- Claim C4 amended: the generated song_id values are pairwise
distinct, and the songplay_id values generated on the filtered log rows
are pairwise distinct; the songplay_id column of the songplays table
itself is duplicate-free provided no two songs rows share (title,
duration) — a fan-out match duplicates the originating row's
songplay_id. -/
theorem C4_amended_id_uniqueness (df : List SongRecord)
    (s : List LogEvent) (songs : List SongsRow)
    (hkey : (songs.map songKey).Nodup) :
    ((songs_table df).map SongsRow.song_id).Nodup ∧
    ((log_df s).map LogRow.songplay_id).Nodup ∧
    (((songplays_join s songs).map Prod.fst).map LogRow.songplay_id).Nodup := by
  refine ⟨?_, ?_, ?_⟩
  · rw [songs_table_ids]
    exact List.nodup_range _
  · rw [log_df_ids]
    exact List.nodup_range _
  · have hrw : ((songplays_join s songs).map Prod.fst).map LogRow.songplay_id
        = (log_df s).flatMap fun l =>
            ((songs.filter fun r =>
              decide (l.song = r.title ∧ l.length = r.duration)).map
                fun _ => l.songplay_id) := by
      rw [songplays_join, List.map_flatMap, List.map_flatMap]
      congr 1
      funext l
      rw [List.map_map, List.map_map]
      rfl
    rw [hrw]
    apply nodup_flatMap_const LogRow.songplay_id
      (fun l => songs.filter fun r =>
        decide (l.song = r.title ∧ l.length = r.duration))
    · intro l
      apply length_filter_le_one songKey _ (l.song, l.length) _ songs hkey
      intro r hr
      rcases of_decide_eq_true hr with ⟨h1, h2⟩
      rw [songKey, h1, h2]
    · rw [log_df_ids]
      exact List.nodup_range _

/-- Witness for the amended C4 on a catalog of two records, a one-event
stream and a one-row songs table. -/
theorem C4_amended_id_uniqueness_witness :
    ((songs_table [fanoutRecA, fanoutRecB]).map SongsRow.song_id).Nodup ∧
    ((log_df [e0]).map LogRow.songplay_id).Nodup ∧
    (((songplays_join [e0] [sampleSong]).map Prod.fst).map
      LogRow.songplay_id).Nodup :=
  C4_amended_id_uniqueness [fanoutRecA, fanoutRecB] [e0] [sampleSong]
    (by decide)

/-- Claim C1 fails on the code: the songplays select asks for user_id,
session_id and user_agent, but the joined frame only carries the
camelCase source columns userId, sessionId and userAgent — etl.py never
renames them — so Spark analysis of the select fails instead of
producing the claimed output columns. -/
theorem C1_select_unresolved :
    selectColumns songplays_select_columns
      (log_df_columns ++ songs_table_columns) = none ∧
    "userId" ∈ log_df_columns ∧ "sessionId" ∈ log_df_columns ∧
    "userAgent" ∈ log_df_columns ∧
    "user_id" ∉ log_df_columns ++ songs_table_columns ∧
    "session_id" ∉ log_df_columns ++ songs_table_columns ∧
    "user_agent" ∉ log_df_columns ++ songs_table_columns := by
  decide

/-- Claim C2 fails on the code: the fact-join step of process_log_data
raises NameError on every input, because line 191 calls the bare name
monotonically_increasing_id (and line 193 the bare name month), which
is bound neither as a local of process_log_data, nor at module scope,
nor as a builtin. -/
theorem C2_fact_join_raises (s : List LogEvent) (songs : List SongsRow) :
    fact_join_step s songs =
      Except.error (nameErrorMsg "monotonically_increasing_id") ∧
    resolvesInProcessLogData "monotonically_increasing_id" = false ∧
    resolvesInProcessLogData "month" = false :=
  ⟨rfl, rfl, rfl⟩

/-- Claim C9: the storage trace of main writes the songs table (during
the catalog phase) strictly before the event phase reads the songs
table back, and the read addresses the same persisted path the write
produced. -/
theorem C9_phase_barrier (i : Nat) (p : String)
    (h : main_trace[i]? = some (StorageEvent.readSongs p)) :
    StorageEvent.writeSongs p ∈ main_trace.take i := by
  match i with
  | 0 | 1 | 2 | 3 | 4 | 5 | 7 =>
      simp [main_trace, process_song_data_trace, process_log_data_trace] at h
  | 6 =>
      simp only [main_trace, process_song_data_trace, process_log_data_trace,
        List.cons_append, List.nil_append, List.getElem?_cons_succ,
        List.getElem?_cons_zero, Option.some.injEq,
        StorageEvent.readSongs.injEq] at h
      subst h
      simp [main_trace, process_song_data_trace, process_log_data_trace,
        List.take]
  | n + 8 =>
      simp [main_trace, process_song_data_trace, process_log_data_trace] at h

/-- Witness for C9 at the one readSongs position of the trace. -/
theorem C9_phase_barrier_witness :
    StorageEvent.writeSongs (get_songs_table_path output_data_path) ∈
      main_trace.take 6 :=
  C9_phase_barrier 6 (get_songs_table_path output_data_path) (by rfl)

end Etl
